/-
Verification of the Nuclei SDK system-timer / exception-dispatch core.

Shallow embedding of:
  - src/NMSIS/Core/Include/core_feature_timer.h (SysTimer / SysTick API)
  - src/SoC/evalsoc/Common/Source/system_evalsoc.c (exception dispatch, IRQ
    registration)

Machine integers are modelled as `Nat` with explicit bounds (`< 2^32`,
`< 2^64`); 64-bit registers on 32-bit (`__RISCV_XLEN == 32`) cores are
modelled as the two 32-bit halves they are in the hardware, with the exact
store/load sequences the C code performs.
-/
import Mathlib

/-! ## 32-bit half-word arithmetic -/

/-- Low 32-bit half of a value: the C cast `(uint32_t)(value)`. -/
def lo32 (n : Nat) : Nat := n % 2 ^ 32

/-- High 32-bit half of a value: the C expression `(uint32_t)(value >> 32)`. -/
def hi32 (n : Nat) : Nat := n / 2 ^ 32 % 2 ^ 32

/-- Recombination of two 32-bit halves into a 64-bit value:
the C expression `(((uint64_t)high) << 32) | low` (for `low < 2^32` the
bitwise or is addition). -/
def combine (hi lo : Nat) : Nat := hi * 2 ^ 32 + lo

theorem lo32_lt (n : Nat) : lo32 n < 2 ^ 32 :=
  Nat.mod_lt _ (by norm_num)

theorem hi32_lt (n : Nat) : hi32 n < 2 ^ 32 :=
  Nat.mod_lt _ (by norm_num)

theorem hi32_eq_div (n : Nat) (h : n < 2 ^ 64) : hi32 n = n / 2 ^ 32 := by
  unfold hi32
  exact Nat.mod_eq_of_lt (Nat.div_lt_of_lt_mul (by norm_num at h ⊢; omega))

theorem combine_hi32_lo32 (n : Nat) (h : n < 2 ^ 64) :
    combine (hi32 n) (lo32 n) = n := by
  unfold combine lo32
  rw [hi32_eq_div n h]
  omega

theorem lo32_combine (h l : Nat) (hl : l < 2 ^ 32) : lo32 (combine h l) = l := by
  unfold lo32 combine
  omega

theorem hi32_combine (h l : Nat) (hh : h < 2 ^ 32) (hl : l < 2 ^ 32) :
    hi32 (combine h l) = h := by
  unfold hi32 combine
  omega

theorem hi32_mono {a b : Nat} (hab : a ≤ b) (hb : b < 2 ^ 64) :
    hi32 a ≤ hi32 b := by
  rw [hi32_eq_div a (lt_of_le_of_lt hab hb), hi32_eq_div b hb]
  exact Nat.div_le_div_right hab

/-! ## SysTimer_GetLoadValue on a 32-bit core (core_feature_timer.h:75) -/

/--
Embedding of `SysTimer_GetLoadValue` for `__RISCV_XLEN == 32`
(core_feature_timer.h lines 75-95).  The live 64-bit MTIMER counter is
modelled by the four values `c0 c1 c2 c3` it holds at the moments of the
(up to) four 32-bit loads the function performs, in program order:

    high0 = __LW(addr + 4);         -- sees c0
    low   = __LW(addr);             -- sees c1
    high  = __LW(addr + 4);         -- sees c2
    if (high0 != high) low = __LW(addr);  -- sees c3
    return (((uint64_t)high) << 32) | low;
-/
def SysTimer_GetLoadValue_rv32 (c0 c1 c2 c3 : Nat) : Nat :=
  let high0 := hi32 c0
  let low := lo32 c1
  let high := hi32 c2
  let low := if high0 ≠ high then lo32 c3 else low
  combine high low

/-- C1: on a 32-bit core, `SysTimer_GetLoadValue` reads high, low, high and
re-reads low exactly when the two high reads differ; for every monotonically
incrementing counter sequence `c0 ≤ c1 ≤ c2 ≤ c3` observed across the
individual 32-bit reads, the returned 64-bit value lies between the first and
last counter value (never a torn value), equals the consistent snapshot `c1`
when the two high reads agree, and is `high2 ++ low3` (the re-read low) when
they differ. -/
theorem SysTimer_GetLoadValue_rv32_not_torn (c0 c1 c2 c3 : Nat)
    (h01 : c0 ≤ c1) (h12 : c1 ≤ c2) (h23 : c2 ≤ c3) (hb : c3 < 2 ^ 64) :
    c0 ≤ SysTimer_GetLoadValue_rv32 c0 c1 c2 c3 ∧
    SysTimer_GetLoadValue_rv32 c0 c1 c2 c3 ≤ c3 ∧
    (hi32 c0 = hi32 c2 → SysTimer_GetLoadValue_rv32 c0 c1 c2 c3 = c1) ∧
    (hi32 c0 ≠ hi32 c2 →
      SysTimer_GetLoadValue_rv32 c0 c1 c2 c3 = combine (hi32 c2) (lo32 c3)) := by
  have hb2 : c2 < 2 ^ 64 := lt_of_le_of_lt h23 hb
  have hb1 : c1 < 2 ^ 64 := lt_of_le_of_lt h12 hb2
  have hb0 : c0 < 2 ^ 64 := lt_of_le_of_lt h01 hb1
  have hval : SysTimer_GetLoadValue_rv32 c0 c1 c2 c3
      = combine (hi32 c2) (if hi32 c0 ≠ hi32 c2 then lo32 c3 else lo32 c1) := rfl
  by_cases heq : hi32 c0 = hi32 c2
  · have h1eq : hi32 c1 = hi32 c2 :=
      le_antisymm (hi32_mono h12 hb2) (heq ▸ hi32_mono h01 hb1)
    have hres : SysTimer_GetLoadValue_rv32 c0 c1 c2 c3 = c1 := by
      rw [hval, if_neg (by simp [heq]), ← h1eq, combine_hi32_lo32 c1 hb1]
    exact ⟨by rw [hres]; exact h01, by rw [hres]; exact le_trans h12 h23,
      fun _ => hres, fun hne => absurd heq hne⟩
  · have hres : SysTimer_GetLoadValue_rv32 c0 c1 c2 c3
        = combine (hi32 c2) (lo32 c3) := by
      rw [hval, if_pos heq]
    have hlt : hi32 c0 < hi32 c2 :=
      lt_of_le_of_ne (hi32_mono (le_trans h01 h12) hb2) heq
    have hc0 := combine_hi32_lo32 c0 hb0
    have hc3 := combine_hi32_lo32 c3 hb
    have hm23 : hi32 c2 ≤ hi32 c3 := hi32_mono h23 hb
    have hl0 := lo32_lt c0
    have hl3 := lo32_lt c3
    refine ⟨?_, ?_, fun h => absurd h heq, fun _ => hres⟩
    · rw [hres]; unfold combine at hc0 ⊢; omega
    · rw [hres]; unfold combine at hc3 ⊢; omega

/-- Witness for C1 at a concrete carry-straddling read: the counter carries
from `0xFFFFFFFF` to `0x100000000` between the two high reads, forcing the
low re-read, and the returned value is the corrected `0x100000001`. -/
theorem SysTimer_GetLoadValue_rv32_not_torn_witness :
    4294967295 ≤ SysTimer_GetLoadValue_rv32 4294967295 4294967295 4294967296 4294967297 ∧
    SysTimer_GetLoadValue_rv32 4294967295 4294967295 4294967296 4294967297 ≤ 4294967297 ∧
    SysTimer_GetLoadValue_rv32 4294967295 4294967295 4294967296 4294967297 = 4294967297 := by
  have h := SysTimer_GetLoadValue_rv32_not_torn 4294967295 4294967295 4294967296 4294967297
    (by norm_num) (by norm_num) (by norm_num) (by norm_num)
  refine ⟨h.1, h.2.1, (h.2.2.2 (by decide)).trans (by decide)⟩

/-! ## Split 32-bit store sequences for the 64-bit MTIMER / MTIMERCMP
registers (`__RISCV_XLEN == 32` paths) -/

/-- One of the two 32-bit halves of a 64-bit memory-mapped register:
`addr` (low word) or `addr + 4` (high word). -/
inductive TimerHalf
  | low
  | high
deriving DecidableEq, Repr

/-- Effect of a 32-bit store `__SW` of word `w` to one half of a 64-bit
register currently holding `v`. -/
def storeHalf (v : Nat) : TimerHalf → Nat → Nat
  | .low, w => combine (hi32 v) w
  | .high, w => combine w (lo32 v)

/-- The sequence of 32-bit stores `SysTimer_SetLoadValue` performs on a
32-bit core (core_feature_timer.h lines 53-64):
`__SW(addr, 0)` ("prevent carry"), `__SW(addr + 4, value >> 32)`,
`__SW(addr, (uint32_t)value)`. -/
def SysTimer_SetLoadValue_rv32_stores (value : Nat) : List (TimerHalf × Nat) :=
  [(.low, 0), (.high, hi32 value), (.low, lo32 value)]

/-- The sequence of 32-bit stores `SysTimer_SetHartCompareValue` performs on
a 32-bit core for either hart path (core_feature_timer.h lines 110-132):
`__SW(addr, -1U)` ("prevent load > timecmp"), `__SW(addr + 4, value >> 32)`,
`__SW(addr, (uint32_t)value)`; `-1U` is `0xFFFFFFFF = 2^32 - 1`. -/
def SysTimer_SetHartCompareValue_rv32_stores (value : Nat) : List (TimerHalf × Nat) :=
  [(.low, 2 ^ 32 - 1), (.high, hi32 value), (.low, lo32 value)]

/-- All values the 64-bit register holds, starting from `init`, across a
sequence of half-word stores (each list entry is an observable intermediate
state; the last is the final state). -/
def regStates (init : Nat) (stores : List (TimerHalf × Nat)) : List Nat :=
  List.scanl (fun v hw => storeHalf v hw.1 hw.2) init stores

theorem SysTimer_SetLoadValue_rv32_states (old value : Nat) (hval : value < 2 ^ 64) :
    regStates old (SysTimer_SetLoadValue_rv32_stores value)
      = [old, combine (hi32 old) 0, combine (hi32 value) 0, value] := by
  have e1 : lo32 (combine (hi32 old) 0) = 0 := lo32_combine _ _ (by norm_num)
  have e2 : hi32 (combine (hi32 value) 0) = hi32 value :=
    hi32_combine _ _ (hi32_lt value) (by norm_num)
  simp [regStates, SysTimer_SetLoadValue_rv32_stores, List.scanl, storeHalf,
    e1, e2, combine_hi32_lo32 value hval]

/-- C9: on a 32-bit core, `SysTimer_SetLoadValue(value)` performs exactly the
store sequence low := 0, high := value's high half, low := value's low half;
every value the 64-bit MTIMER register holds along the way is at most
`max old value` (so the old low half never combines with the new high half
into a value larger than both), and the final state is exactly `value`. -/
theorem SysTimer_SetLoadValue_rv32_no_carry_glitch (old value : Nat)
    (hold : old < 2 ^ 64) (hval : value < 2 ^ 64) :
    SysTimer_SetLoadValue_rv32_stores value
      = [(.low, 0), (.high, hi32 value), (.low, lo32 value)] ∧
    regStates old (SysTimer_SetLoadValue_rv32_stores value)
      = [old, combine (hi32 old) 0, combine (hi32 value) 0, value] ∧
    (∀ x ∈ regStates old (SysTimer_SetLoadValue_rv32_stores value),
      x ≤ max old value) := by
  have hstates := SysTimer_SetLoadValue_rv32_states old value hval
  refine ⟨rfl, hstates, ?_⟩
  intro x hx
  rw [hstates] at hx
  have hco := combine_hi32_lo32 old hold
  have hcv := combine_hi32_lo32 value hval
  simp only [List.mem_cons, List.not_mem_nil, or_false] at hx
  rcases hx with rfl | rfl | rfl | rfl
  · exact le_max_left _ _
  · exact le_trans (by unfold combine at hco ⊢; omega) (le_max_left _ _)
  · exact le_trans (by unfold combine at hcv ⊢; omega) (le_max_right _ _)
  · exact le_max_right _ _

/-- Witness for C9: setting MTIMER from `0x1_00000005` to `0x2_00000003`
passes through `0x1_00000000` and `0x2_00000000`, both at most the maximum
of the old and new values. -/
theorem SysTimer_SetLoadValue_rv32_no_carry_glitch_witness :
    regStates 4294967301 (SysTimer_SetLoadValue_rv32_stores 8589934595)
      = [4294967301, 4294967296, 8589934592, 8589934595] ∧
    (∀ x ∈ regStates 4294967301 (SysTimer_SetLoadValue_rv32_stores 8589934595),
      x ≤ max 4294967301 8589934595) := by
  have h := SysTimer_SetLoadValue_rv32_no_carry_glitch 4294967301 8589934595
    (by norm_num) (by norm_num)
  exact ⟨h.2.1.trans (by decide), h.2.2⟩

theorem SysTimer_SetHartCompareValue_rv32_states (old value : Nat)
    (hval : value < 2 ^ 64) :
    regStates old (SysTimer_SetHartCompareValue_rv32_stores value)
      = [old, combine (hi32 old) (2 ^ 32 - 1), combine (hi32 value) (2 ^ 32 - 1),
         value] := by
  have e1 : lo32 (combine (hi32 old) 4294967295) = 4294967295 :=
    lo32_combine _ _ (by norm_num)
  have e2 : hi32 (combine (hi32 value) 4294967295) = hi32 value :=
    hi32_combine _ _ (hi32_lt value) (by norm_num)
  simp [regStates, SysTimer_SetHartCompareValue_rv32_stores, List.scanl, storeHalf,
    e1, e2, combine_hi32_lo32 value hval]

/-- C2: on a 32-bit core, the store sequence of
`SysTimer_SetHartCompareValue(new_compare, hartid)` (identical for the hart-0
and hart-nonzero paths: low := all-ones sentinel, high := new high half,
low := new low half) keeps the 64-bit compare register strictly above the
counter at every observable intermediate point, whenever both the old and the
new compare values are strictly above the counter; the final state is exactly
`new_compare`. -/
theorem SysTimer_SetHartCompareValue_rv32_no_spurious (old value counter : Nat)
    (hold : old < 2 ^ 64) (hval : value < 2 ^ 64)
    (holdgt : counter < old) (hvalgt : counter < value) :
    (∀ x ∈ regStates old (SysTimer_SetHartCompareValue_rv32_stores value),
      counter < x) ∧
    (regStates old (SysTimer_SetHartCompareValue_rv32_stores value)).getLast?
      = some value := by
  have hstates := SysTimer_SetHartCompareValue_rv32_states old value hval
  constructor
  · intro x hx
    rw [hstates] at hx
    have hco := combine_hi32_lo32 old hold
    have hcv := combine_hi32_lo32 value hval
    have hlo := lo32_lt old
    have hlv := lo32_lt value
    simp only [List.mem_cons, List.not_mem_nil, or_false] at hx
    rcases hx with rfl | rfl | rfl | rfl
    · exact holdgt
    · exact lt_of_lt_of_le holdgt (by unfold combine at hco ⊢; omega)
    · exact lt_of_lt_of_le hvalgt (by unfold combine at hcv ⊢; omega)
    · exact hvalgt
  · rw [hstates]; rfl

/-- Witness for C2: moving the compare register from `6` down to `5` while
the counter is `4` never exposes a compare value at or below the counter:
the intermediate states are the sentinel `0xFFFFFFFF` twice, then `5`. -/
theorem SysTimer_SetHartCompareValue_rv32_no_spurious_witness :
    (∀ x ∈ regStates 6 (SysTimer_SetHartCompareValue_rv32_stores 5), 4 < x) ∧
    (regStates 6 (SysTimer_SetHartCompareValue_rv32_stores 5)).getLast?
      = some 5 := by
  exact SysTimer_SetHartCompareValue_rv32_no_spurious 6 5 4
    (by norm_num) (by norm_num) (by norm_num) (by norm_num)

/-! ## Abstract 64-bit register state of the system timer

For claims about final register contents (tick reload/config policy, return
codes) the 64-bit registers are modelled by their values; the half-word store
sequences above refine these final values on 32-bit cores. -/

/-- The SysTimer registers a single hart's tick configuration touches:
the MTIMER counter, the hart-0 fixed MTIMERCMP register, and the per-hart
CLINT MTIMECMP region (indexed by hart id, used for hart ids ≥ 1). -/
structure TimerState where
  mtimer : Nat
  mtimercmp : Nat
  clintCmp : Nat → Nat

/-- `SysTimer_GetLoadValue` (core_feature_timer.h:75): reads MTIMER (the
64-bit value; the torn-read analysis of the 32-bit path is above). -/
def SysTimer_GetLoadValue (s : TimerState) : Nat := s.mtimer

/-- `SysTimer_SetLoadValue` (core_feature_timer.h:53): final effect is
MTIMER := value. -/
def SysTimer_SetLoadValue (value : Nat) (s : TimerState) : TimerState :=
  { s with mtimer := value }

/-- `SysTimer_SetHartCompareValue` (core_feature_timer.h:110): final effect
is MTIMERCMP for `hartid` := value (the fixed register for hart 0, the CLINT
slot otherwise). -/
def SysTimer_SetHartCompareValue (value hartid : Nat) (s : TimerState) :
    TimerState :=
  if hartid = 0 then { s with mtimercmp := value }
  else { s with clintCmp := Function.update s.clintCmp hartid value }

/-- `SysTimer_GetHartCompareValue` (core_feature_timer.h:163). -/
def SysTimer_GetHartCompareValue (hartid : Nat) (s : TimerState) : Nat :=
  if hartid = 0 then s.mtimercmp else s.clintCmp hartid

/-- `SysTimer_SetCompareValue` (core_feature_timer.h:146) delegates to
`SysTimer_SetHartCompareValue` at the calling hart's own id
(`SysTimer_GetHartID()`, passed here as `selfHart`). -/
def SysTimer_SetCompareValue (value selfHart : Nat) (s : TimerState) :
    TimerState :=
  SysTimer_SetHartCompareValue value selfHart s

/-- `SysTick_Config` (core_feature_timer.h:466): sets the calling hart's
compare register to `ticks + loadticks` (64-bit wrapping addition) with no
overflow test, then configures the ECLIC interrupt (no timer-register
effect), and returns 0. -/
def SysTick_Config (ticks selfHart : Nat) (s : TimerState) : TimerState × Nat :=
  (SysTimer_SetCompareValue ((ticks + SysTimer_GetLoadValue s) % 2 ^ 64)
    selfHart s, 0)

/-- `SysTick_HartConfig` (core_feature_timer.h:502): as `SysTick_Config` but
for an explicit hart id. -/
def SysTick_HartConfig (ticks hartid : Nat) (s : TimerState) :
    TimerState × Nat :=
  (SysTimer_SetHartCompareValue ((ticks + SysTimer_GetLoadValue s) % 2 ^ 64)
    hartid s, 0)

/-- `SysTick_Reload` (core_feature_timer.h:535): computes
`reload_ticks = ticks + cur_ticks` (64-bit wrapping), and if
`reload_ticks > cur_ticks` programs it as the calling hart's compare value,
otherwise resets MTIMER to 0 and programs `ticks`; always returns 0. -/
def SysTick_Reload (ticks selfHart : Nat) (s : TimerState) : TimerState × Nat :=
  let cur_ticks := SysTimer_GetLoadValue s
  let reload_ticks := (ticks + cur_ticks) % 2 ^ 64
  if reload_ticks > cur_ticks then
    (SysTimer_SetCompareValue reload_ticks selfHart s, 0)
  else
    (SysTimer_SetCompareValue ticks selfHart (SysTimer_SetLoadValue 0 s), 0)

/-- `SysTick_HartReload` (core_feature_timer.h:578): as `SysTick_Reload` but
for an explicit hart id. -/
def SysTick_HartReload (ticks hartid : Nat) (s : TimerState) :
    TimerState × Nat :=
  let cur_ticks := SysTimer_GetLoadValue s
  let reload_ticks := (ticks + cur_ticks) % 2 ^ 64
  if reload_ticks > cur_ticks then
    (SysTimer_SetHartCompareValue reload_ticks hartid s, 0)
  else
    (SysTimer_SetHartCompareValue ticks hartid (SysTimer_SetLoadValue 0 s), 0)

theorem SysTimer_SetHartCompareValue_mtimer (value hartid : Nat)
    (s : TimerState) :
    (SysTimer_SetHartCompareValue value hartid s).mtimer = s.mtimer := by
  unfold SysTimer_SetHartCompareValue
  by_cases h0 : hartid = 0 <;> simp [h0]

theorem SysTimer_GetHartCompareValue_set (value hartid : Nat) (s : TimerState) :
    SysTimer_GetHartCompareValue hartid
      (SysTimer_SetHartCompareValue value hartid s) = value := by
  unfold SysTimer_GetHartCompareValue SysTimer_SetHartCompareValue
  by_cases h0 : hartid = 0 <;> simp [h0]

/-- Counterexample to C3 as stated. (a) `SysTick_Reload` with `ticks = 0` and
counter 5: `0 + 5` does not wrap the 64-bit range, yet the strict test
`reload_ticks > cur_ticks` fails, so the code resets the counter to 0 and
sets compare to 0 instead of leaving the counter at 5 and setting compare to
5. (b) `SysTick_Config` with `ticks = 2^64 - 1` and counter 1: the sum wraps,
yet `SysTick_Config` has no overflow test — it leaves the counter at 1 and
sets compare to the wrapped value 0 instead of resetting the counter to 0 and
setting compare to `ticks`. -/
theorem SysTick_tick_config_claim_counterexample :
    ((SysTick_Reload 0 0 ⟨5, 100, fun _ => 0⟩).1.mtimer = 0 ∧
      (SysTick_Reload 0 0 ⟨5, 100, fun _ => 0⟩).1.mtimercmp = 0 ∧
      ¬ ((SysTick_Reload 0 0 ⟨5, 100, fun _ => 0⟩).1.mtimer = 5 ∧
         (SysTick_Reload 0 0 ⟨5, 100, fun _ => 0⟩).1.mtimercmp = 5)) ∧
    ((SysTick_Config (2 ^ 64 - 1) 0 ⟨1, 0, fun _ => 0⟩).1.mtimer = 1 ∧
      (SysTick_Config (2 ^ 64 - 1) 0 ⟨1, 0, fun _ => 0⟩).1.mtimercmp = 0 ∧
      ¬ ((SysTick_Config (2 ^ 64 - 1) 0 ⟨1, 0, fun _ => 0⟩).1.mtimer = 0 ∧
         (SysTick_Config (2 ^ 64 - 1) 0 ⟨1, 0, fun _ => 0⟩).1.mtimercmp
           = 2 ^ 64 - 1)) := by
  refine ⟨⟨?_, ?_, ?_⟩, ?_, ?_, ?_⟩ <;> decide

/-- C3 (amended): for the reload operations `SysTick_Reload` and
`SysTick_HartReload`, whenever `ticks ≥ 1` and `ticks + counter` does not
wrap the 64-bit range, the hart's compare register becomes exactly
`ticks + counter` and the counter is unmodified; whenever `ticks + counter`
wraps, the counter is reset to 0 and the compare register becomes exactly
`ticks`; the overflow test is the strict comparison
`reload_ticks > cur_ticks`, so `ticks = 0` also takes the reset branch
(counter := 0, compare := 0) even though no wrap occurs.  The configuration
operations `SysTick_Config` and `SysTick_HartConfig` perform no overflow
test: they always set the compare register to `(ticks + counter) mod 2^64`
and never modify the counter. -/
theorem SysTick_tick_config_policy (ticks hartid : Nat) (s : TimerState)
    (hticks : ticks < 2 ^ 64) (hcur : s.mtimer < 2 ^ 64) :
    (1 ≤ ticks → ticks + s.mtimer < 2 ^ 64 →
      ((SysTick_Reload ticks hartid s).1.mtimer = s.mtimer ∧
       SysTimer_GetHartCompareValue hartid (SysTick_Reload ticks hartid s).1
         = ticks + s.mtimer) ∧
      ((SysTick_HartReload ticks hartid s).1.mtimer = s.mtimer ∧
       SysTimer_GetHartCompareValue hartid (SysTick_HartReload ticks hartid s).1
         = ticks + s.mtimer)) ∧
    (2 ^ 64 ≤ ticks + s.mtimer →
      ((SysTick_Reload ticks hartid s).1.mtimer = 0 ∧
       SysTimer_GetHartCompareValue hartid (SysTick_Reload ticks hartid s).1
         = ticks) ∧
      ((SysTick_HartReload ticks hartid s).1.mtimer = 0 ∧
       SysTimer_GetHartCompareValue hartid (SysTick_HartReload ticks hartid s).1
         = ticks)) ∧
    (ticks = 0 →
      ((SysTick_Reload ticks hartid s).1.mtimer = 0 ∧
       SysTimer_GetHartCompareValue hartid (SysTick_Reload ticks hartid s).1
         = 0) ∧
      ((SysTick_HartReload ticks hartid s).1.mtimer = 0 ∧
       SysTimer_GetHartCompareValue hartid (SysTick_HartReload ticks hartid s).1
         = 0)) ∧
    ((SysTick_Config ticks hartid s).1.mtimer = s.mtimer ∧
     SysTimer_GetHartCompareValue hartid (SysTick_Config ticks hartid s).1
       = (ticks + s.mtimer) % 2 ^ 64) ∧
    ((SysTick_HartConfig ticks hartid s).1.mtimer = s.mtimer ∧
     SysTimer_GetHartCompareValue hartid (SysTick_HartConfig ticks hartid s).1
       = (ticks + s.mtimer) % 2 ^ 64) := by
  refine ⟨?_, ?_, ?_, ?_, ?_⟩
  · intro h1 hnw
    have hmod : (ticks + s.mtimer) % 2 ^ 64 = ticks + s.mtimer :=
      Nat.mod_eq_of_lt hnw
    have hgt : (ticks + SysTimer_GetLoadValue s) % 2 ^ 64
        > SysTimer_GetLoadValue s := by
      unfold SysTimer_GetLoadValue; omega
    constructor
    · unfold SysTick_Reload SysTimer_SetCompareValue
      rw [if_pos hgt]
      exact ⟨SysTimer_SetHartCompareValue_mtimer _ _ _,
        by rw [SysTimer_GetHartCompareValue_set]; unfold SysTimer_GetLoadValue; omega⟩
    · unfold SysTick_HartReload
      rw [if_pos hgt]
      exact ⟨SysTimer_SetHartCompareValue_mtimer _ _ _,
        by rw [SysTimer_GetHartCompareValue_set]; unfold SysTimer_GetLoadValue; omega⟩
  · intro hw
    have hle : ¬ ((ticks + SysTimer_GetLoadValue s) % 2 ^ 64
        > SysTimer_GetLoadValue s) := by
      unfold SysTimer_GetLoadValue; omega
    constructor
    · unfold SysTick_Reload SysTimer_SetCompareValue
      rw [if_neg hle]
      exact ⟨SysTimer_SetHartCompareValue_mtimer _ _ _,
        SysTimer_GetHartCompareValue_set _ _ _⟩
    · unfold SysTick_HartReload
      rw [if_neg hle]
      exact ⟨SysTimer_SetHartCompareValue_mtimer _ _ _,
        SysTimer_GetHartCompareValue_set _ _ _⟩
  · rintro rfl
    have hle : ¬ ((0 + SysTimer_GetLoadValue s) % 2 ^ 64
        > SysTimer_GetLoadValue s) := by
      unfold SysTimer_GetLoadValue; omega
    constructor
    · unfold SysTick_Reload SysTimer_SetCompareValue
      rw [if_neg hle]
      exact ⟨SysTimer_SetHartCompareValue_mtimer _ _ _,
        SysTimer_GetHartCompareValue_set _ _ _⟩
    · unfold SysTick_HartReload
      rw [if_neg hle]
      exact ⟨SysTimer_SetHartCompareValue_mtimer _ _ _,
        SysTimer_GetHartCompareValue_set _ _ _⟩
  · unfold SysTick_Config SysTimer_SetCompareValue SysTimer_GetLoadValue
    exact ⟨SysTimer_SetHartCompareValue_mtimer _ _ _,
      SysTimer_GetHartCompareValue_set _ _ _⟩
  · unfold SysTick_HartConfig SysTimer_GetLoadValue
    exact ⟨SysTimer_SetHartCompareValue_mtimer _ _ _,
      SysTimer_GetHartCompareValue_set _ _ _⟩

/-- Witness for the amended C3 at concrete inputs: reloading hart 2 with
`ticks = 7` from counter 5 programs compare = 12 and leaves the counter at 5. -/
theorem SysTick_tick_config_policy_witness :
    (SysTick_HartReload 7 2 ⟨5, 0, fun _ => 0⟩).1.mtimer = 5 ∧
    SysTimer_GetHartCompareValue 2 (SysTick_HartReload 7 2 ⟨5, 0, fun _ => 0⟩).1
      = 12 := by
  have h := SysTick_tick_config_policy 7 2 ⟨5, 0, fun _ => 0⟩
    (by norm_num) (by norm_num)
  exact (h.1 (by norm_num) (by norm_num)).2

/-! ## MTIMECTL control register (core_feature_timer.h:235, 248) -/

/-- Modelled from the spec: the field masks of the MTIMECTL control register
are defined in a register-layout header that is not under src/; per the spec
(sections 3 and 6) the defined control bits are TIMESTOP (bit 0), CMPCLREN
and CLKSRC. -/
def SysTimer_MTIMECTL_TIMESTOP_Msk : Nat := 1

/-- Modelled from the spec: CMPCLREN field mask (bit 1). -/
def SysTimer_MTIMECTL_CMPCLREN_Msk : Nat := 2

/-- Modelled from the spec: CLKSRC field mask (bit 2). -/
def SysTimer_MTIMECTL_CLKSRC_Msk : Nat := 4

/-- Modelled from the spec: `SysTimer_MTIMECTL_Msk` covers exactly the
defined control bits TIMESTOP, CMPCLREN and CLKSRC. -/
def SysTimer_MTIMECTL_Msk : Nat :=
  SysTimer_MTIMECTL_TIMESTOP_Msk ||| SysTimer_MTIMECTL_CMPCLREN_Msk |||
    SysTimer_MTIMECTL_CLKSRC_Msk

/-- `SysTimer_SetControlValue` (core_feature_timer.h:235): the value stored
into `SysTimer->MTIMECTL` is `mctl & SysTimer_MTIMECTL_Msk`. -/
def SysTimer_SetControlValue (mctl : Nat) : Nat :=
  mctl &&& SysTimer_MTIMECTL_Msk

/-- `SysTimer_GetControlValue` (core_feature_timer.h:248): reads
`SysTimer->MTIMECTL & SysTimer_MTIMECTL_Msk`. -/
def SysTimer_GetControlValue (mtimectl : Nat) : Nat :=
  mtimectl &&& SysTimer_MTIMECTL_Msk

/-- C8: writing `v` through `SysTimer_SetControlValue` and reading back
through `SysTimer_GetControlValue` yields exactly `v & SysTimer_MTIMECTL_Msk`,
and every bit outside the mask is absent from the stored register value. -/
theorem SysTimer_ControlValue_roundtrip (v : Nat) :
    SysTimer_GetControlValue (SysTimer_SetControlValue v)
      = v &&& SysTimer_MTIMECTL_Msk ∧
    (∀ i : Nat, SysTimer_MTIMECTL_Msk.testBit i = false →
      (SysTimer_SetControlValue v).testBit i = false) := by
  constructor
  · unfold SysTimer_GetControlValue SysTimer_SetControlValue
    rw [Nat.and_assoc, Nat.and_self]
  · intro i hi
    unfold SysTimer_SetControlValue
    rw [Nat.testBit_and, hi, Bool.and_false]

/-- Witness for C8 at `v = 42 = 0b101010`: the round trip returns
`42 & 7 = 2`, and bit 5 of the stored value (set in `v`, outside the mask)
reads back as 0. -/
theorem SysTimer_ControlValue_roundtrip_witness :
    SysTimer_GetControlValue (SysTimer_SetControlValue 42) = 2 ∧
    (SysTimer_SetControlValue 42).testBit 5 = false := by
  exact ⟨(SysTimer_ControlValue_roundtrip 42).1.trans (by decide),
    (SysTimer_ControlValue_roundtrip 42).2 5 (by decide)⟩

/-! ## IRQC registration (system_evalsoc.c:392) -/

/-- Observable outcome of `IRQC_Register_IRQ`: the vector installed by
`IRQC_SetVector` (if any), the IRQ number passed to `IRQC_EnableIRQ`, and
the return value. -/
structure IRQCRegisterOutcome where
  vectorSet : Option (Nat × Nat)
  enabledIRQ : Nat
  ret : Int
deriving DecidableEq, Repr

/-- Embedding of `IRQC_Register_IRQ` (system_evalsoc.c lines 392-401).  The
range check `if (IRQn >= SOC_INT_MAX) { }` has an empty body and therefore
no effect; `handler != NULL` (NULL modelled as 0) guards the
`IRQC_SetVector(IRQn, handler)` call; `IRQC_EnableIRQ(IRQn)` runs
unconditionally; the function returns 0 on its only path. -/
def IRQC_Register_IRQ (IRQn handler : Nat) : IRQCRegisterOutcome :=
  { vectorSet := if handler ≠ 0 then some (IRQn, handler) else none
    enabledIRQ := IRQn
    ret := 0 }

/-- C10: the registration and reload functions never report failure:
`IRQC_Register_IRQ` returns 0 (never the documented -1) for every input,
still enabling the IRQ even for a NULL handler, and
`SysTick_Reload`/`SysTick_HartReload` return 0 on every path. -/
theorem registration_and_reload_never_fail (IRQn handler ticks hartid : Nat)
    (s : TimerState) :
    (IRQC_Register_IRQ IRQn handler).ret = 0 ∧
    (IRQC_Register_IRQ IRQn handler).ret ≠ -1 ∧
    (handler = 0 → (IRQC_Register_IRQ IRQn handler).vectorSet = none ∧
      (IRQC_Register_IRQ IRQn handler).enabledIRQ = IRQn) ∧
    (SysTick_Reload ticks hartid s).2 = 0 ∧
    (SysTick_HartReload ticks hartid s).2 = 0 := by
  refine ⟨rfl, by rw [show (IRQC_Register_IRQ IRQn handler).ret = 0 from rfl]; decide,
    fun h => by simp [IRQC_Register_IRQ, h], ?_, ?_⟩
  · simp only [SysTick_Reload]
    split <;> rfl
  · simp only [SysTick_HartReload]
    split <;> rfl

/-- Witness for C10: registering IRQ 1000 (out of any SoC's range) with a
NULL handler still returns 0 and enables IRQ 1000, and a reload returns 0. -/
theorem registration_and_reload_never_fail_witness :
    (IRQC_Register_IRQ 1000 0).ret = 0 ∧
    (IRQC_Register_IRQ 1000 0).vectorSet = none ∧
    (IRQC_Register_IRQ 1000 0).enabledIRQ = 1000 ∧
    (SysTick_Reload 3 0 ⟨1, 2, fun _ => 0⟩).2 = 0 := by
  have h := registration_and_reload_never_fail 1000 0 3 0 ⟨1, 2, fun _ => 0⟩
  exact ⟨h.1, (h.2.2.1 rfl).1, (h.2.2.1 rfl).2, h.2.2.2.1⟩

/-! ## Per-hart CLINT addressing (core_feature_timer.h:110, 163, 264, 300,
339, 377, 423, 435) -/

/-- Modelled from the spec: the macro `SysTimer_CLINT_MSIP_BASE(hartid)` is
defined in a device header not under src/; per the spec (section 4.2) it
computes `base + hartid * stride` for the fixed MSIP region base and per-hart
stride, here passed as parameters. -/
def SysTimer_CLINT_MSIP_BASE (base stride hartid : Nat) : Nat :=
  base + hartid * stride

/-- Modelled from the spec: the macro `SysTimer_CLINT_MTIMECMP_BASE(hartid)`
is defined in a device header not under src/; per the spec (section 4.2) it
computes `base + hartid * stride` for the fixed MTIMECMP region base and
per-hart stride, here passed as parameters. -/
def SysTimer_CLINT_MTIMECMP_BASE (base stride hartid : Nat) : Nat :=
  base + hartid * stride

/-- The register address a SysTimer accessor resolves: either one of the
fixed hart-0 registers of the `SysTimer` block (a struct field access,
`SysTimer->MTIMERCMP` / `SysTimer->MSIP`), or a raw byte address computed by
the per-hart CLINT resolver. -/
inductive SysTimerRegAddr
  | fixedMTIMERCMP
  | fixedMSIP
  | clint (addr : Nat)
deriving DecidableEq, Repr

/-- Address resolved by `SysTimer_SendIPI` (core_feature_timer.h:423): always
the CLINT MSIP slot, with no hart-0 special case. -/
def SysTimer_SendIPI_addr (base stride hartid : Nat) : SysTimerRegAddr :=
  .clint (SysTimer_CLINT_MSIP_BASE base stride hartid)

/-- Address resolved by `SysTimer_ClearIPI` (core_feature_timer.h:435):
always the CLINT MSIP slot, with no hart-0 special case. -/
def SysTimer_ClearIPI_addr (base stride hartid : Nat) : SysTimerRegAddr :=
  .clint (SysTimer_CLINT_MSIP_BASE base stride hartid)

/-- Address resolved by `SysTimer_SetHartSWIRQ` (core_feature_timer.h:264):
the fixed `SysTimer->MSIP` register for hart 0, the CLINT MSIP slot
otherwise. -/
def SysTimer_SetHartSWIRQ_addr (base stride hartid : Nat) : SysTimerRegAddr :=
  if hartid = 0 then .fixedMSIP
  else .clint (SysTimer_CLINT_MSIP_BASE base stride hartid)

/-- Address resolved by `SysTimer_ClearHartSWIRQ` (core_feature_timer.h:300). -/
def SysTimer_ClearHartSWIRQ_addr (base stride hartid : Nat) : SysTimerRegAddr :=
  if hartid = 0 then .fixedMSIP
  else .clint (SysTimer_CLINT_MSIP_BASE base stride hartid)

/-- Address resolved by `SysTimer_GetHartMsipValue` (core_feature_timer.h:339). -/
def SysTimer_GetHartMsipValue_addr (base stride hartid : Nat) : SysTimerRegAddr :=
  if hartid = 0 then .fixedMSIP
  else .clint (SysTimer_CLINT_MSIP_BASE base stride hartid)

/-- Address resolved by `SysTimer_SetHartMsipValue` (core_feature_timer.h:377). -/
def SysTimer_SetHartMsipValue_addr (base stride hartid : Nat) : SysTimerRegAddr :=
  if hartid = 0 then .fixedMSIP
  else .clint (SysTimer_CLINT_MSIP_BASE base stride hartid)

/-- Address resolved by `SysTimer_SetHartCompareValue`
(core_feature_timer.h:110): the fixed `SysTimer->MTIMERCMP` register for
hart 0, the CLINT MTIMECMP slot otherwise. -/
def SysTimer_SetHartCompareValue_addr (base stride hartid : Nat) :
    SysTimerRegAddr :=
  if hartid = 0 then .fixedMTIMERCMP
  else .clint (SysTimer_CLINT_MTIMECMP_BASE base stride hartid)

/-- Address resolved by `SysTimer_GetHartCompareValue`
(core_feature_timer.h:163). -/
def SysTimer_GetHartCompareValue_addr (base stride hartid : Nat) :
    SysTimerRegAddr :=
  if hartid = 0 then .fixedMTIMERCMP
  else .clint (SysTimer_CLINT_MTIMECMP_BASE base stride hartid)

/-- C4: `SysTimer_SendIPI`/`SysTimer_ClearIPI` compute the per-hart indexed
address `base + hartid * stride` for every hart id, including hart 0, while
the MSIP accessors and the compare accessors never invoke the per-hart
resolver for hart 0 (they use the fixed primary registers) and for every
hart id ≥ 1 compute `base + hartid * stride` in their region — the MSIP
accessors resolving exactly the same address as `SendIPI`/`ClearIPI` for the
same nonzero hart. -/
theorem SysTimer_hart_addressing (msipBase msipStride cmpBase cmpStride
    hartid : Nat) :
    (SysTimer_SendIPI_addr msipBase msipStride hartid
       = .clint (msipBase + hartid * msipStride) ∧
     SysTimer_ClearIPI_addr msipBase msipStride hartid
       = .clint (msipBase + hartid * msipStride)) ∧
    (hartid = 0 →
      SysTimer_SetHartSWIRQ_addr msipBase msipStride hartid = .fixedMSIP ∧
      SysTimer_ClearHartSWIRQ_addr msipBase msipStride hartid = .fixedMSIP ∧
      SysTimer_GetHartMsipValue_addr msipBase msipStride hartid = .fixedMSIP ∧
      SysTimer_SetHartMsipValue_addr msipBase msipStride hartid = .fixedMSIP ∧
      SysTimer_SetHartCompareValue_addr cmpBase cmpStride hartid
        = .fixedMTIMERCMP ∧
      SysTimer_GetHartCompareValue_addr cmpBase cmpStride hartid
        = .fixedMTIMERCMP) ∧
    (1 ≤ hartid →
      SysTimer_SetHartSWIRQ_addr msipBase msipStride hartid
        = SysTimer_SendIPI_addr msipBase msipStride hartid ∧
      SysTimer_ClearHartSWIRQ_addr msipBase msipStride hartid
        = SysTimer_SendIPI_addr msipBase msipStride hartid ∧
      SysTimer_GetHartMsipValue_addr msipBase msipStride hartid
        = SysTimer_SendIPI_addr msipBase msipStride hartid ∧
      SysTimer_SetHartMsipValue_addr msipBase msipStride hartid
        = SysTimer_SendIPI_addr msipBase msipStride hartid ∧
      SysTimer_SetHartCompareValue_addr cmpBase cmpStride hartid
        = .clint (cmpBase + hartid * cmpStride) ∧
      SysTimer_GetHartCompareValue_addr cmpBase cmpStride hartid
        = .clint (cmpBase + hartid * cmpStride)) := by
  refine ⟨⟨rfl, rfl⟩, ?_, ?_⟩
  · rintro rfl
    exact ⟨rfl, rfl, rfl, rfl, rfl, rfl⟩
  · intro h1
    have h0 : hartid ≠ 0 := by omega
    simp [SysTimer_SetHartSWIRQ_addr, SysTimer_ClearHartSWIRQ_addr,
      SysTimer_GetHartMsipValue_addr, SysTimer_SetHartMsipValue_addr,
      SysTimer_SetHartCompareValue_addr, SysTimer_GetHartCompareValue_addr,
      SysTimer_SendIPI_addr, SysTimer_CLINT_MTIMECMP_BASE,
      SysTimer_CLINT_MSIP_BASE, h0]

/-- Witness for C4 at hart 3 with MSIP region base 0x2001000, stride 4 and
MTIMECMP region base 0x2004000, stride 8. -/
theorem SysTimer_hart_addressing_witness :
    SysTimer_SendIPI_addr 33558528 4 3 = .clint 33558540 ∧
    SysTimer_SetHartSWIRQ_addr 33558528 4 3 = .clint 33558540 ∧
    SysTimer_SetHartCompareValue_addr 33570816 8 3 = .clint 33570840 ∧
    SysTimer_SetHartSWIRQ_addr 33558528 4 0 = .fixedMSIP := by
  have h := SysTimer_hart_addressing 33558528 4 33570816 8 3
  have h0 := SysTimer_hart_addressing 33558528 4 33570816 8 0
  exact ⟨h.1.1.trans (by decide), ((h.2.2 (by norm_num)).1).trans (h.1.1.trans (by decide)),
    ((h.2.2 (by norm_num)).2.2.2.2.1).trans (by decide), (h0.2.1 rfl).1⟩

/-! ## Exception dispatch table (system_evalsoc.c:190-336) -/

/-- `MAX_SYSTEM_EXCEPTION_NUM` (system_evalsoc.c:193). -/
def MAX_SYSTEM_EXCEPTION_NUM : Nat := 12

/-- The static table `SystemExceptionHandlers` (system_evalsoc.c:201) before
`Exception_Init` runs: a zero-initialized C static array of 12 handler
addresses (each `unsigned long`, modelled as `Nat`; NULL is 0). -/
def SystemExceptionHandlers_start : List Nat :=
  List.replicate MAX_SYSTEM_EXCEPTION_NUM 0

/-- `Exception_Init` (system_evalsoc.c:245): for each `i` in
`0 .. MAX_SYSTEM_EXCEPTION_NUM - 1`, store the address of
`system_default_exception_handler` (a link-time constant, passed here as
`sdeh`) into slot `i`. -/
def Exception_Init (sdeh : Nat) : List Nat :=
  (List.range MAX_SYSTEM_EXCEPTION_NUM).foldl (fun t i => t.set i sdeh)
    SystemExceptionHandlers_start

/-- `Exception_Register_EXC` (system_evalsoc.c:288): overwrite slot `EXCn`
when `EXCn < MAX_SYSTEM_EXCEPTION_NUM`, otherwise do nothing. -/
def Exception_Register_EXC (tbl : List Nat) (EXCn exc_handler : Nat) :
    List Nat :=
  if EXCn < MAX_SYSTEM_EXCEPTION_NUM then tbl.set EXCn exc_handler else tbl

/-- `Exception_Get_EXC` (system_evalsoc.c:302): returns the table entry for
`EXCn < MAX_SYSTEM_EXCEPTION_NUM`; for larger `EXCn` control reaches the end
of the function without executing a return statement, modelled as `none`. -/
def Exception_Get_EXC (tbl : List Nat) (EXCn : Nat) : Option Nat :=
  if EXCn < MAX_SYSTEM_EXCEPTION_NUM then some (tbl.getD EXCn 0) else none

/-- `core_exception_handler` (system_evalsoc.c:322): extracts the exception
code as `mcause & 0xFFF`, selects the table entry when the code is below
`MAX_SYSTEM_EXCEPTION_NUM` and `system_default_exception_handler` (address
`sdeh`) otherwise, and calls the selected handler with `(mcause, sp)` when it
is non-NULL; returns 0.  The first component records the performed handler
invocation as `(handler, mcause, sp)`. -/
def core_exception_handler (tbl : List Nat) (sdeh mcause sp : Nat) :
    Option (Nat × Nat × Nat) × Nat :=
  let EXCn := mcause &&& 0xfff
  let exc_handler :=
    if EXCn < MAX_SYSTEM_EXCEPTION_NUM then tbl.getD EXCn 0 else sdeh
  (if exc_handler ≠ 0 then some (exc_handler, mcause, sp) else none, 0)

/-- C5: after `Exception_Init`, `Exception_Get_EXC` returns the default
handler reference for every code in 0..11; after a valid registration,
`Exception_Get_EXC` returns the registered handler; an out-of-range
registration leaves the table unchanged. -/
theorem Exception_table_lifecycle (sdeh code handler : Nat) (tbl : List Nat)
    (hlen : tbl.length = MAX_SYSTEM_EXCEPTION_NUM) :
    (code < MAX_SYSTEM_EXCEPTION_NUM →
      Exception_Get_EXC (Exception_Init sdeh) code = some sdeh ∧
      Exception_Get_EXC (Exception_Register_EXC tbl code handler) code
        = some handler) ∧
    (MAX_SYSTEM_EXCEPTION_NUM ≤ code →
      Exception_Register_EXC tbl code handler = tbl) := by
  constructor
  · intro hcode
    constructor
    · have hcode12 : code < 12 := hcode
      interval_cases code <;> rfl
    · unfold Exception_Register_EXC Exception_Get_EXC
      rw [if_pos hcode, if_pos hcode, List.getD_eq_getElem?_getD,
        List.getElem?_set_self (by rw [hlen]; exact hcode)]
      rfl
  · intro hge
    unfold Exception_Register_EXC
    rw [if_neg (by omega)]

/-- Witness for C5: with default handler address 77, slot 3 reads back 77
after init, reads back 99 after registering 99, and registering at code 12
leaves a table untouched. -/
theorem Exception_table_lifecycle_witness :
    Exception_Get_EXC (Exception_Init 77) 3 = some 77 ∧
    Exception_Get_EXC (Exception_Register_EXC (List.replicate 12 5) 3 99) 3
      = some 99 ∧
    Exception_Register_EXC (List.replicate 12 5) 12 99
      = List.replicate 12 5 := by
  have h3 := Exception_table_lifecycle 77 3 99 (List.replicate 12 5) (by decide)
  have h12 := Exception_table_lifecycle 77 12 99 (List.replicate 12 5) (by decide)
  exact ⟨(h3.1 (by decide)).1, (h3.1 (by decide)).2, h12.2 (by decide)⟩

/-- C6: for every `mcause` and context pointer `sp`, `core_exception_handler`
extracts the exception code as the low 12 bits of `mcause`, selects the table
entry when the code is in 0..11 and the default handler otherwise, and
invokes the selected handler (when non-NULL, as every linked handler is) with
the arguments `(mcause, sp)`. -/
theorem core_exception_handler_dispatch (tbl : List Nat) (sdeh mcause sp : Nat) :
    mcause &&& 0xfff = mcause % 2 ^ 12 ∧
    (mcause % 2 ^ 12 < MAX_SYSTEM_EXCEPTION_NUM →
      tbl.getD (mcause % 2 ^ 12) 0 ≠ 0 →
      (core_exception_handler tbl sdeh mcause sp).1
        = some (tbl.getD (mcause % 2 ^ 12) 0, mcause, sp)) ∧
    (MAX_SYSTEM_EXCEPTION_NUM ≤ mcause % 2 ^ 12 → sdeh ≠ 0 →
      (core_exception_handler tbl sdeh mcause sp).1 = some (sdeh, mcause, sp)) ∧
    (core_exception_handler tbl sdeh mcause sp).2 = 0 := by
  have hmask : mcause &&& 0xfff = mcause % 2 ^ 12 := by
    have h := Nat.and_pow_two_sub_one_eq_mod mcause 12
    norm_num at h ⊢
    exact h
  have hunf : core_exception_handler tbl sdeh mcause sp
      = (if (if mcause % 2 ^ 12 < MAX_SYSTEM_EXCEPTION_NUM
              then tbl.getD (mcause % 2 ^ 12) 0 else sdeh) ≠ 0
         then some ((if mcause % 2 ^ 12 < MAX_SYSTEM_EXCEPTION_NUM
              then tbl.getD (mcause % 2 ^ 12) 0 else sdeh), mcause, sp)
         else none, 0) := by
    simp only [core_exception_handler, hmask]
  refine ⟨hmask, ?_, ?_, by rw [hunf]⟩
  · intro hlt hne
    rw [hunf]
    simp only [if_pos hlt]
    rw [if_pos hne]
  · intro hge hne
    rw [hunf]
    simp only [if_neg (by omega : ¬ mcause % 2 ^ 12 < MAX_SYSTEM_EXCEPTION_NUM)]
    rw [if_pos hne]

/-- Witness for C6: `mcause = 0x8002` has low 12 bits 2; with handler 55
registered in slot 2 the invocation is `(55, 0x8002, sp)`, and with
`mcause = 0x1FF` (code 511, out of table range) the default handler 77 is
invoked. -/
theorem core_exception_handler_dispatch_witness :
    (core_exception_handler (List.replicate 12 55) 77 32770 9000).1
      = some (55, 32770, 9000) ∧
    (core_exception_handler (List.replicate 12 55) 77 511 9000).1
      = some (77, 511, 9000) := by
  have h1 := core_exception_handler_dispatch (List.replicate 12 55) 77 32770 9000
  have h2 := core_exception_handler_dispatch (List.replicate 12 55) 77 511 9000
  exact ⟨(h1.2.1 (by decide) (by decide)).trans (by decide),
    h2.2.2.1 (by decide) (by decide)⟩

/-- C7: `Exception_Get_EXC` produces a defined value exactly when the
precondition `EXCn < MAX_SYSTEM_EXCEPTION_NUM` holds; for every
`EXCn ≥ 12` the C function falls off the end without a return statement,
so the embedding yields `none`. -/
theorem Exception_Get_EXC_defined_iff (tbl : List Nat) (EXCn : Nat) :
    (Exception_Get_EXC tbl EXCn).isSome ↔ EXCn < MAX_SYSTEM_EXCEPTION_NUM := by
  unfold Exception_Get_EXC
  by_cases h : EXCn < MAX_SYSTEM_EXCEPTION_NUM <;> simp [h]
